import Mathlib

/-
Verification of the early_returns crate (src/src/lib.rs): a family of
control-flow combinators that unwrap an Option or a Result and, on the
absent or failing variant, perform a non-local control transfer
(return from the routine, break out of a loop, or continue a loop,
optionally targeting a labeled outer loop).

Embedding: the expansion of each combinator is a pure value of type
Flow: either the unwrapped payload, or a description of the control
transfer it performs.  A loop label is embedded as the number of loop
nests between the use site and the labeled loop, so the bare forms
target depth 0 (the innermost enclosing loop); in the nested test
harnesses the label placed on the outer loop is one nest above the use
site, hence depth 1.  Routine bodies and loops are interpreted by
bindFlow, runLoop and runFn, which implement the ordinary sequencing,
for-loop and labeled break and continue semantics of the host language
with explicit state passing (the state is the value field of the
Tester struct, or the produced output for the print functions).
Rust references erase in this value-level embedding, so the
by-reference variants of the test routines have the same body as the
by-value ones; the i32 payloads are embedded as Int.
-/

namespace EarlyReturns

/-- Result of evaluating a combinator expansion: either the unwrapped
payload, or the control transfer performed instead.  ret is a bare
return (the source transfer is a plain return statement carrying no
value); brk n and cont n break or continue the loop n nests above the
innermost one (n = 0 is the innermost loop, as targeted by the
unlabeled forms). -/
inductive Flow (α : Type) : Type where
  | val : α → Flow α
  | ret : Flow α
  | brk : Nat → Flow α
  | cont : Nat → Flow α
deriving DecidableEq

/-- Outcome of executing a statement block with state σ: it finished
normally, or one of the three transfers escaped it, each carrying the
state at the moment of the transfer. -/
inductive Outcome (σ : Type) : Type where
  | norm : σ → Outcome σ
  | ret : σ → Outcome σ
  | brk : Nat → σ → Outcome σ
  | cont : Nat → σ → Outcome σ
deriving DecidableEq

/-- Sequencing of a let binding on a combinator: let v = combinator; k v.
If the combinator yielded a payload, the rest k of the block runs on
it; if it diverted, the rest of the block never runs and the transfer
escapes with the current state s. -/
def bindFlow (f : Flow α) (s : σ) (k : α → Outcome σ) : Outcome σ :=
  match f with
  | Flow.val x => k x
  | Flow.ret => Outcome.ret s
  | Flow.brk n => Outcome.brk n s
  | Flow.cont n => Outcome.cont n s

/-- A for loop over a list.  A break or continue targeting this loop
(depth 0) ends it or advances it; a transfer targeting an outer loop
propagates outward with its depth decremented by the one nest it just
escaped; a return propagates unchanged. -/
def runLoop (body : σ → β → Outcome σ) : σ → List β → Outcome σ
  | s, [] => Outcome.norm s
  | s, x :: xs =>
    match body s x with
    | Outcome.norm s1 => runLoop body s1 xs
    | Outcome.ret s1 => Outcome.ret s1
    | Outcome.brk 0 s1 => Outcome.norm s1
    | Outcome.brk (n + 1) s1 => Outcome.brk n s1
    | Outcome.cont 0 s1 => runLoop body s1 xs
    | Outcome.cont (n + 1) s1 => Outcome.cont n s1

/-- Routine level: a body that finished normally or returned ends the
routine; the state (the mutations already performed through the
mutable receiver) persists.  In a well-formed program no break or
continue reaches routine level. -/
def runFn : Outcome σ → σ
  | Outcome.norm s => s
  | Outcome.ret s => s
  | Outcome.brk _ s => s
  | Outcome.cont _ s => s

/-! Source combinators (src/src/lib.rs lines 10-188).  Each macro arm
pattern-matches the input against its present or success variant and
either evaluates to the payload or performs its transfer.  The arms
taking a lifetime argument are embedded as the separate functions with
the lt suffix, the label given as a nest depth. -/

/-- some_or_return, lines 11-19: the payload of a Some, else return. -/
def some_or_return (o : Option α) : Flow α :=
  match o with
  | some f => Flow.val f
  | none => Flow.ret

/-- some_or_break, lines 42-48: the payload of a Some, else break the
innermost loop. -/
def some_or_break (o : Option α) : Flow α :=
  match o with
  | some f => Flow.val f
  | none => Flow.brk 0

/-- some_or_break with a lifetime, lines 50-56: the payload of a Some,
else break the loop labeled by the given nest depth. -/
def some_or_break_lt (o : Option α) (lt : Nat) : Flow α :=
  match o with
  | some f => Flow.val f
  | none => Flow.brk lt

/-- some_or_continue, lines 80-86: the payload of a Some, else
continue the innermost loop. -/
def some_or_continue (o : Option α) : Flow α :=
  match o with
  | some f => Flow.val f
  | none => Flow.cont 0

/-- some_or_continue with a lifetime, lines 88-94: the payload of a
Some, else continue the loop labeled by the given nest depth. -/
def some_or_continue_lt (o : Option α) (lt : Nat) : Flow α :=
  match o with
  | some f => Flow.val f
  | none => Flow.cont lt

/-- ok_or_return, lines 106-114: the payload of an Ok, else return.
The error payload of the Err case is never inspected. -/
def ok_or_return (r : Except ε α) : Flow α :=
  match r with
  | Except.ok f => Flow.val f
  | Except.error _ => Flow.ret

/-- ok_or_break, lines 137-143. -/
def ok_or_break (r : Except ε α) : Flow α :=
  match r with
  | Except.ok f => Flow.val f
  | Except.error _ => Flow.brk 0

/-- ok_or_break with a lifetime, lines 144-150. -/
def ok_or_break_lt (r : Except ε α) (lt : Nat) : Flow α :=
  match r with
  | Except.ok f => Flow.val f
  | Except.error _ => Flow.brk lt

/-- ok_or_continue, lines 174-180. -/
def ok_or_continue (r : Except ε α) : Flow α :=
  match r with
  | Except.ok f => Flow.val f
  | Except.error _ => Flow.cont 0

/-- ok_or_continue with a lifetime, lines 181-187. -/
def ok_or_continue_lt (r : Except ε α) (lt : Nat) : Flow α :=
  match r with
  | Except.ok f => Flow.val f
  | Except.error _ => Flow.cont lt

/-! Arm arities of the six macro definitions, transcribed from
src/src/lib.rs: the number of arguments accepted by each arm of each
macro.  The two return-form macros define exactly one arm taking one
expression (lines 11-19 and 106-114); the break and continue forms
each add a second arm taking an expression and a lifetime. -/

def some_or_return_forms : List Nat := [1]

def some_or_break_forms : List Nat := [1, 2]

def some_or_continue_forms : List Nat := [1, 2]

def ok_or_return_forms : List Nat := [1]

def ok_or_break_forms : List Nat := [1, 2]

def ok_or_continue_forms : List Nat := [1, 2]

/-! Effectful input expressions.  A macro argument is an expression
that may have a side effect; it is embedded as a state transformer
producing the Option or Except value together with the updated effect
state.  Each expansion evaluates its input expression exactly once and
then matches the resulting value, so the effectful form of each
combinator is: run the input expression, then apply the pure
combinator to the value it produced. -/

def some_or_return_e (from_ : σ → Option α × σ) (s : σ) : Flow α × σ :=
  let r := from_ s
  (some_or_return r.1, r.2)

def some_or_break_e (from_ : σ → Option α × σ) (s : σ) : Flow α × σ :=
  let r := from_ s
  (some_or_break r.1, r.2)

def some_or_continue_e (from_ : σ → Option α × σ) (s : σ) : Flow α × σ :=
  let r := from_ s
  (some_or_continue r.1, r.2)

def ok_or_return_e (from_ : σ → Except ε α × σ) (s : σ) : Flow α × σ :=
  let r := from_ s
  (ok_or_return r.1, r.2)

def ok_or_break_e (from_ : σ → Except ε α × σ) (s : σ) : Flow α × σ :=
  let r := from_ s
  (ok_or_break r.1, r.2)

def ok_or_continue_e (from_ : σ → Except ε α × σ) (s : σ) : Flow α × σ :=
  let r := from_ s
  (ok_or_continue r.1, r.2)

/-! Test harness routines (the Tester impl, src/src/lib.rs lines
192-322).  The state is the value field of the Tester; each routine
maps the state before the call to the state after it. -/

/-- increment_with_optional, lines 201-204: unwrap or return, then add
the payload to the value field. -/
def increment_with_optional (self : Int) (value : Option Int) : Int :=
  runFn (bindFlow (some_or_return value) self fun v => Outcome.norm (self + v))

/-- increment_with_result, lines 206-209. -/
def increment_with_result (self : Int) (value : Except Unit Int) : Int :=
  runFn (bindFlow (ok_or_return value) self fun v => Outcome.norm (self + v))

/-- increment_with_optional_with_ref, lines 211-214: the Rust argument
is an Option of a reference to i32, whose payload is dereferenced by
the addition; references erase in this embedding. -/
def increment_with_optional_with_ref (self : Int) (value : Option Int) : Int :=
  runFn (bindFlow (some_or_return value) self fun v => Outcome.norm (self + v))

/-- increment_with_result_with_ref, lines 216-219. -/
def increment_with_result_with_ref (self : Int) (value : Except Unit Int) : Int :=
  runFn (bindFlow (ok_or_return value) self fun v => Outcome.norm (self + v))

/-- increment_with_ref_to_optional, lines 221-224: the Rust argument
is a reference to an Option of i32, matched through the reference;
references erase in this embedding. -/
def increment_with_ref_to_optional (self : Int) (value : Option Int) : Int :=
  runFn (bindFlow (some_or_return value) self fun v => Outcome.norm (self + v))

/-- increment_with_ref_to_result, lines 226-229. -/
def increment_with_ref_to_result (self : Int) (value : Except Unit Int) : Int :=
  runFn (bindFlow (ok_or_return value) self fun v => Outcome.norm (self + v))

/-- increment_with_optional_with_break, lines 231-236: one loop over
the list, unwrap or break on each element, add the payload. -/
def increment_with_optional_with_break (self : Int) (values : List (Option Int)) : Int :=
  runFn (runLoop
    (fun s value => bindFlow (some_or_break value) s fun v => Outcome.norm (s + v))
    self values)

/-- increment_with_optional_with_break_with_lifetime, lines 238-246:
an outer loop labeled l over the list adds 1 to the value field, then
an inner loop over 0..1 unwraps or breaks targeting l (one nest above
the use site, hence depth 1) and adds the payload. -/
def increment_with_optional_with_break_with_lifetime (self : Int) (values : List (Option Int)) : Int :=
  runFn (runLoop
    (fun s value =>
      let s1 := s + 1
      runLoop (fun s2 _i => bindFlow (some_or_break_lt value 1) s2 fun v => Outcome.norm (s2 + v))
        s1 (List.range 1))
    self values)

/-- increment_with_optional_with_continue, lines 248-253. -/
def increment_with_optional_with_continue (self : Int) (values : List (Option Int)) : Int :=
  runFn (runLoop
    (fun s value => bindFlow (some_or_continue value) s fun v => Outcome.norm (s + v))
    self values)

/-- increment_with_optional_with_continue_with_lifetime, lines
255-266: same nested shape as the labeled break harness, with continue
targeting the outer label. -/
def increment_with_optional_with_continue_with_lifetime (self : Int) (values : List (Option Int)) : Int :=
  runFn (runLoop
    (fun s value =>
      let s1 := s + 1
      runLoop (fun s2 _i => bindFlow (some_or_continue_lt value 1) s2 fun v => Outcome.norm (s2 + v))
        s1 (List.range 1))
    self values)

/-- increment_with_result_with_break, lines 268-273. -/
def increment_with_result_with_break (self : Int) (values : List (Except Unit Int)) : Int :=
  runFn (runLoop
    (fun s value => bindFlow (ok_or_break value) s fun v => Outcome.norm (s + v))
    self values)

/-- increment_with_result_with_break_with_lifetime, lines 275-283. -/
def increment_with_result_with_break_with_lifetime (self : Int) (values : List (Except Unit Int)) : Int :=
  runFn (runLoop
    (fun s value =>
      let s1 := s + 1
      runLoop (fun s2 _i => bindFlow (ok_or_break_lt value 1) s2 fun v => Outcome.norm (s2 + v))
        s1 (List.range 1))
    self values)

/-- increment_with_result_with_continue, lines 285-290. -/
def increment_with_result_with_continue (self : Int) (values : List (Except Unit Int)) : Int :=
  runFn (runLoop
    (fun s value => bindFlow (ok_or_continue value) s fun v => Outcome.norm (s + v))
    self values)

/-- increment_with_result_with_continue_with_lifetime, lines 292-303. -/
def increment_with_result_with_continue_with_lifetime (self : Int) (values : List (Except Unit Int)) : Int :=
  runFn (runLoop
    (fun s value =>
      let s1 := s + 1
      runLoop (fun s2 _i => bindFlow (ok_or_continue_lt value 1) s2 fun v => Outcome.norm (s2 + v))
        s1 (List.range 1))
    self values)

/-- The nested harness of increment_with_optional_with_break_with_lifetime
with the bare (unlabeled) arm of some_or_break in the inner loop,
exercising the bare form inside a nested loop. -/
def increment_nested_with_bare_break (self : Int) (values : List (Option Int)) : Int :=
  runFn (runLoop
    (fun s value =>
      let s1 := s + 1
      runLoop (fun s2 _i => bindFlow (some_or_break value) s2 fun v => Outcome.norm (s2 + v))
        s1 (List.range 1))
    self values)

/-- The nested harness of increment_with_optional_with_continue_with_lifetime
with the bare (unlabeled) arm of some_or_continue in the inner loop. -/
def increment_nested_with_bare_continue (self : Int) (values : List (Option Int)) : Int :=
  runFn (runLoop
    (fun s value =>
      let s1 := s + 1
      runLoop (fun s2 _i => bindFlow (some_or_continue value) s2 fun v => Outcome.norm (s2 + v))
        s1 (List.range 1))
    self values)

/-- increment_with_optional_by_ref, lines 305-312: the input converted
by as_ref, unwrap or return, add the dereferenced payload. -/
def increment_with_optional_by_ref (self : Int) (values : Option Int) : Int :=
  runFn (bindFlow (some_or_return values) self fun i => Outcome.norm (self + i))

/-- increment_with_optional_from_fn_result, lines 314-321: calls the
getter closure once and applies unwrap or return to its result. -/
def increment_with_optional_from_fn_result (self : Int) (value_getter : Unit → Option Int) : Int :=
  runFn (bindFlow (some_or_return (value_getter ())) self fun i => Outcome.norm (self + i))

/-- increment_with_optional_from_fn_result with an effectful getter:
the getter is a state transformer and is invoked exactly once, as in
the source expansion, before the match. -/
def increment_with_optional_from_fn_result_e (self : Int) (value_getter : σ → Option Int × σ)
    (s : σ) : Int × σ :=
  let r := some_or_return_e value_getter s
  (runFn (bindFlow r.1 self fun i => Outcome.norm (self + i)), r.2)

/-! The three print functions, src/src/lib.rs lines 485-523.  The
observable output is embedded as an Option of the four printed
integers (a, b, c, a + b + c); none means nothing was printed. -/

/-- print_if_all_available_nested, lines 485-493: three nested if-let
blocks around the print. -/
def print_if_all_available_nested (a b : Option Int) (c : Except Unit Int) :
    Option (Int × Int × Int × Int) :=
  match a with
  | some a =>
    match b with
    | some b =>
      match c with
      | Except.ok c => some (a, b, c, a + b + c)
      | Except.error _ => none
    | none => none
  | none => none

/-- print_if_all_available_verbose, lines 495-515: three written-out
if-let-else-return bindings, then the print. -/
def print_if_all_available_verbose (a b : Option Int) (c : Except Unit Int) :
    Option (Int × Int × Int × Int) :=
  runFn (bindFlow (match a with | some a => Flow.val a | none => Flow.ret) none fun a =>
    bindFlow (match b with | some b => Flow.val b | none => Flow.ret) none fun b =>
      bindFlow (match c with | Except.ok c => Flow.val c | Except.error _ => Flow.ret) none fun c =>
        Outcome.norm (some (a, b, c, a + b + c)))

/-- print_if_all_available_macro, lines 517-523: the same routine
written with the combinators. -/
def print_if_all_available_macro (a b : Option Int) (c : Except Unit Int) :
    Option (Int × Int × Int × Int) :=
  runFn (bindFlow (some_or_return a) none fun a =>
    bindFlow (some_or_return b) none fun b =>
      bindFlow (ok_or_return c) none fun c =>
        Outcome.norm (some (a, b, c, a + b + c)))

end EarlyReturns

namespace EarlyReturns

/-- C1: for every Present input, each of the unwrap-or-return,
unwrap-or-break and unwrap-or-continue combinators (bare and labeled
arms) evaluates to the payload x and performs no control transfer, the
code after the combinator running on x; for every Absent input, each
performs its configured divert (return, break or continue targeting
its depth) and the code after the combinator in that scope never
executes: the outcome carries only the state at the divert and ignores
the continuation k. -/
theorem c1_unwrap_or_divert (α σ : Type) (x : α) (n : Nat) (s : σ) (k : α → Outcome σ) :
    some_or_return (some x) = Flow.val x ∧
    some_or_break (some x) = Flow.val x ∧
    some_or_break_lt (some x) n = Flow.val x ∧
    some_or_continue (some x) = Flow.val x ∧
    some_or_continue_lt (some x) n = Flow.val x ∧
    bindFlow (some_or_return (some x)) s k = k x ∧
    bindFlow (some_or_break (some x)) s k = k x ∧
    bindFlow (some_or_continue (some x)) s k = k x ∧
    bindFlow (some_or_return (none : Option α)) s k = Outcome.ret s ∧
    bindFlow (some_or_break (none : Option α)) s k = Outcome.brk 0 s ∧
    bindFlow (some_or_break_lt (none : Option α) n) s k = Outcome.brk n s ∧
    bindFlow (some_or_continue (none : Option α)) s k = Outcome.cont 0 s ∧
    bindFlow (some_or_continue_lt (none : Option α) n) s k = Outcome.cont n s :=
  ⟨rfl, rfl, rfl, rfl, rfl, rfl, rfl, rfl, rfl, rfl, rfl, rfl, rfl⟩

/-- C2: for every Success input, each Outcome-form combinator
evaluates to the payload x; for every Failure input, whatever the
value and type of the error payload e, the combinator performs its
divert and the error payload is discarded: the result is the same
constant transfer for every e, so the payload is never inspected,
transformed or propagated. -/
theorem c2_outcome_combinators (α ε σ : Type) (x : α) (e : ε) (n : Nat) (s : σ)
    (k : α → Outcome σ) :
    ok_or_return (Except.ok x : Except ε α) = Flow.val x ∧
    ok_or_break (Except.ok x : Except ε α) = Flow.val x ∧
    ok_or_break_lt (Except.ok x : Except ε α) n = Flow.val x ∧
    ok_or_continue (Except.ok x : Except ε α) = Flow.val x ∧
    ok_or_continue_lt (Except.ok x : Except ε α) n = Flow.val x ∧
    ok_or_return (Except.error e : Except ε α) = Flow.ret ∧
    ok_or_break (Except.error e : Except ε α) = Flow.brk 0 ∧
    ok_or_break_lt (Except.error e : Except ε α) n = Flow.brk n ∧
    ok_or_continue (Except.error e : Except ε α) = Flow.cont 0 ∧
    ok_or_continue_lt (Except.error e : Except ε α) n = Flow.cont n ∧
    bindFlow (ok_or_return (Except.error e : Except ε α)) s k = Outcome.ret s :=
  ⟨rfl, rfl, rfl, rfl, rfl, rfl, rfl, rfl, rfl, rfl, rfl⟩

/-- C3 counterexample: the claim asserts a defaulted two-argument form
of the unwrap-or-return combinators; in the source, some_or_return and
ok_or_return each define exactly one arm taking a single expression,
so no two-argument arm exists. -/
theorem c3_counterexample :
    ¬ (2 ∈ some_or_return_forms ∨ 2 ∈ ok_or_return_forms) := by decide

/-- C3 (amended): the unwrap-or-return combinators have only the bare
single-argument form; on the absence or failure path they divert with
a bare return carrying no result value (so no default expression
exists to be evaluated), and on the present or success path they yield
the payload. -/
theorem c3_amended_bare_return_only (α ε : Type) (e : ε) (y : α) :
    some_or_return_forms = [1] ∧
    ok_or_return_forms = [1] ∧
    some_or_return (none : Option α) = Flow.ret ∧
    ok_or_return (Except.error e : Except ε α) = Flow.ret ∧
    some_or_return (some y) = Flow.val y ∧
    ok_or_return (Except.ok y : Except ε α) = Flow.val y :=
  ⟨rfl, rfl, rfl, rfl, rfl, rfl⟩

/-- C4: in the nested harnesses (outer loop labeled, inner loop inside
it), an Absent element met in the inner loop with the bare form only
ends or advances the inner loop and the outer loop proceeds with its
next iteration (the result equals running the harness on the remaining
elements with the one outer increment applied); with the outer-labeled
form, break ends the outer loop itself, skipping all remaining
elements, and continue advances the outer loop directly to its next
iteration. -/
theorem c4_nested_loop_divert_targets (s : Int) (rest : List (Option Int)) :
    increment_nested_with_bare_break s (none :: rest) =
      increment_nested_with_bare_break (s + 1) rest ∧
    increment_nested_with_bare_continue s (none :: rest) =
      increment_nested_with_bare_continue (s + 1) rest ∧
    increment_with_optional_with_break_with_lifetime s (none :: rest) = s + 1 ∧
    increment_with_optional_with_continue_with_lifetime s (none :: rest) =
      increment_with_optional_with_continue_with_lifetime (s + 1) rest :=
  ⟨rfl, rfl, rfl, rfl⟩

/-- C5: the nested labeled-continue harness on the list
[Absent, Present 1] from value 0 accumulates exactly 3: two outer
increments of 1 plus the one unwrapped inner value 1, the Absent
element triggering an outer-labeled continue that skips the rest of
that outer iteration. -/
theorem c5_labeled_continue_total_three :
    increment_with_optional_with_continue_with_lifetime 0 [none, some 1] = 3 := rfl

/-- C6: summing [Absent, Present 1] over a single loop with bare
unwrap-or-break yields 0 (the loop exits at the Absent element before
reaching Present 1), while bare unwrap-or-continue yields 1 (the
Absent element is skipped and Present 1 is added). -/
theorem c6_single_loop_break_vs_continue :
    increment_with_optional_with_break 0 [none, some 1] = 0 ∧
    increment_with_optional_with_continue 0 [none, some 1] = 1 :=
  ⟨rfl, rfl⟩

/-- C7: applied to the plain value Present 1, to a reference to the
value, and to a value whose payload is a reference, the combinator
contributes exactly 1 to the running total in all three shapes; the
three routines moreover agree on every input, the reference shape
never changing the result. -/
theorem c7_reference_shapes (s : Int) (o : Option Int) :
    increment_with_optional s (some 1) = s + 1 ∧
    increment_with_optional_with_ref s (some 1) = s + 1 ∧
    increment_with_ref_to_optional s (some 1) = s + 1 ∧
    increment_with_optional_with_ref s o = increment_with_optional s o ∧
    increment_with_ref_to_optional s o = increment_with_optional s o :=
  ⟨rfl, rfl, rfl, rfl, rfl⟩

/-- C8: each of the six combinators evaluates its input expression
exactly once per invocation: for every effectful input expression the
resulting effect state is exactly the state after one evaluation, on
both the present and absent paths, and the produced flow is the pure
combinator applied to the value that single evaluation returned; the
getter-based routine likewise invokes its getter exactly once, and
with a counting getter the count rises by exactly 1 whether the getter
yields Present 1 or Absent. -/
theorem c8_input_evaluated_exactly_once (σ α ε : Type) (fo : σ → Option α × σ)
    (fr : σ → Except ε α × σ) (s : σ) (self : Int) (g : σ → Option Int × σ) :
    (some_or_return_e fo s).2 = (fo s).2 ∧
    (some_or_return_e fo s).1 = some_or_return (fo s).1 ∧
    (some_or_break_e fo s).2 = (fo s).2 ∧
    (some_or_break_e fo s).1 = some_or_break (fo s).1 ∧
    (some_or_continue_e fo s).2 = (fo s).2 ∧
    (some_or_continue_e fo s).1 = some_or_continue (fo s).1 ∧
    (ok_or_return_e fr s).2 = (fr s).2 ∧
    (ok_or_return_e fr s).1 = ok_or_return (fr s).1 ∧
    (ok_or_break_e fr s).2 = (fr s).2 ∧
    (ok_or_break_e fr s).1 = ok_or_break (fr s).1 ∧
    (ok_or_continue_e fr s).2 = (fr s).2 ∧
    (ok_or_continue_e fr s).1 = ok_or_continue (fr s).1 ∧
    (increment_with_optional_from_fn_result_e self g s).2 = (g s).2 ∧
    increment_with_optional_from_fn_result_e 0 (fun n : Nat => (some 1, n + 1)) 0 = (1, 1) ∧
    increment_with_optional_from_fn_result_e 0 (fun n : Nat => (none, n + 1)) 0 = (0, 1) :=
  ⟨rfl, rfl, rfl, rfl, rfl, rfl, rfl, rfl, rfl, rfl, rfl, rfl, rfl, rfl, rfl⟩

/-- C9: the combinator-based print routine is behaviorally equivalent
to both the nested if-let routine and the verbose early-return
routine on every input, and all of them produce output exactly when
both options are Present and the result is Success. -/
theorem c9_print_equivalence (a b : Option Int) (c : Except Unit Int) :
    print_if_all_available_macro a b c = print_if_all_available_nested a b c ∧
    print_if_all_available_macro a b c = print_if_all_available_verbose a b c ∧
    (( print_if_all_available_macro a b c).isSome = true ↔
      (a.isSome = true ∧ b.isSome = true ∧ ∃ x, c = Except.ok x)) := by
  cases a <;> cases b <;> cases c <;>
    simp [ print_if_all_available_macro, print_if_all_available_nested,
      print_if_all_available_verbose, some_or_return, ok_or_return, bindFlow, runFn]

/-- C10: a diverting input leaves the state unchanged: from every
initial value v, increment_with_optional on Absent and
increment_with_result on a Failure leave the value field equal to v,
with no partial mutation on the divert path. -/
theorem c10_no_mutation_on_divert (v : Int) :
    increment_with_optional v none = v ∧
    increment_with_result v (Except.error ()) = v :=
  ⟨rfl, rfl⟩

end EarlyReturns
